import Mathlib

/-!
Verification development for the securedrop-export disk-export pipeline.

The definitions below are a shallow embedding of the Python sources:
  - securedrop_export/exceptions.py   (ExportStatus)
  - securedrop_export/export.py       (SDExport.exit_gracefully, SDExport.mount_volume,
                                       Metadata, __main__ dispatch data)
  - securedrop_export/usb/actions.py  (USBActionMixin and USBExportAction.run)
  - securedrop_export/utils.py        (safe_check_call)
  - securedrop_export/main.py         (__main__ dispatch)

External commands are not executed; instead an `Env` record supplies the
observable outcome of every command (its success bit and its parsed output),
and each embedded operation returns the updated state, the control outcome
(normal return, sys.exit, or an uncaught Python exception) and the list of
subprocesses it spawned (argv, stdin payload, extra environment entries).
-/

namespace SDExport

/-- Status codes from securedrop_export/exceptions.py (class ExportStatus). -/
inductive ExportStatus
  | ERROR_FILE_NOT_FOUND
  | ERROR_EXTRACTION
  | ERROR_METADATA_PARSING
  | ERROR_ARCHIVE_METADATA
  | ERROR_USB_CONFIGURATION
  | ERROR_GENERIC
  | USB_CONNECTED
  | USB_NOT_CONNECTED
  | ERROR_USB_CHECK
  | USB_ENCRYPTED
  | USB_ENCRYPTED_UNLOCKED
  | USB_ENCRYPTION_NOT_SUPPORTED
  | USB_DISK_ERROR
  | ERROR_MULTIPLE_PRINTERS_FOUND
  | ERROR_PRINTER_NOT_FOUND
  | ERROR_PRINTER_NOT_SUPPORTED
  | ERROR_PRINTER_DRIVER_UNAVAILABLE
  | ERROR_PRINTER_INSTALL
  | USB_BAD_PASSPHRASE
  | ERROR_USB_MOUNT
  | ERROR_USB_WRITE
  | ERROR_PRINT
  deriving DecidableEq, Repr

/-- The `.value` string of each ExportStatus member (identical to its name). -/
def ExportStatus.value : ExportStatus → String
  | .ERROR_FILE_NOT_FOUND => "ERROR_FILE_NOT_FOUND"
  | .ERROR_EXTRACTION => "ERROR_EXTRACTION"
  | .ERROR_METADATA_PARSING => "ERROR_METADATA_PARSING"
  | .ERROR_ARCHIVE_METADATA => "ERROR_ARCHIVE_METADATA"
  | .ERROR_USB_CONFIGURATION => "ERROR_USB_CONFIGURATION"
  | .ERROR_GENERIC => "ERROR_GENERIC"
  | .USB_CONNECTED => "USB_CONNECTED"
  | .USB_NOT_CONNECTED => "USB_NOT_CONNECTED"
  | .ERROR_USB_CHECK => "ERROR_USB_CHECK"
  | .USB_ENCRYPTED => "USB_ENCRYPTED"
  | .USB_ENCRYPTED_UNLOCKED => "USB_ENCRYPTED_UNLOCKED"
  | .USB_ENCRYPTION_NOT_SUPPORTED => "USB_ENCRYPTION_NOT_SUPPORTED"
  | .USB_DISK_ERROR => "USB_DISK_ERROR"
  | .ERROR_MULTIPLE_PRINTERS_FOUND => "ERROR_MULTIPLE_PRINTERS_FOUND"
  | .ERROR_PRINTER_NOT_FOUND => "ERROR_PRINTER_NOT_FOUND"
  | .ERROR_PRINTER_NOT_SUPPORTED => "ERROR_PRINTER_NOT_SUPPORTED"
  | .ERROR_PRINTER_DRIVER_UNAVAILABLE => "ERROR_PRINTER_DRIVER_UNAVAILABLE"
  | .ERROR_PRINTER_INSTALL => "ERROR_PRINTER_INSTALL"
  | .USB_BAD_PASSPHRASE => "USB_BAD_PASSPHRASE"
  | .ERROR_USB_MOUNT => "ERROR_USB_MOUNT"
  | .ERROR_USB_WRITE => "ERROR_USB_WRITE"
  | .ERROR_PRINT => "ERROR_PRINT"

/-- Every `.value` string of the ExportStatus enumeration, in source order. -/
def statusValues : List String :=
  ["ERROR_FILE_NOT_FOUND", "ERROR_EXTRACTION", "ERROR_METADATA_PARSING",
   "ERROR_ARCHIVE_METADATA", "ERROR_USB_CONFIGURATION", "ERROR_GENERIC",
   "USB_CONNECTED", "USB_NOT_CONNECTED", "ERROR_USB_CHECK",
   "USB_ENCRYPTED", "USB_ENCRYPTED_UNLOCKED", "USB_ENCRYPTION_NOT_SUPPORTED",
   "USB_DISK_ERROR", "ERROR_MULTIPLE_PRINTERS_FOUND", "ERROR_PRINTER_NOT_FOUND",
   "ERROR_PRINTER_NOT_SUPPORTED", "ERROR_PRINTER_DRIVER_UNAVAILABLE",
   "ERROR_PRINTER_INSTALL", "USB_BAD_PASSPHRASE", "ERROR_USB_MOUNT",
   "ERROR_USB_WRITE", "ERROR_PRINT"]

/-- Whether a string written to stderr is one of the Status tokens. -/
def isStatusValue (s : String) : Bool := statusValues.contains s

/-- How many of the strings written to stderr are Status tokens. -/
def statusCount (l : List String) : Nat := (l.filter isStatusValue).length

/-- Splitting of a character list at every occurrence of a separator
character, keeping empty pieces, with an accumulator for the piece being
built (Python str.split with an explicit separator). -/
def splitChars (sep : Char) : List Char → List Char → List String
  | acc, [] => [String.mk acc.reverse]
  | acc, c :: cs =>
    if c == sep then String.mk acc.reverse :: splitChars sep [] cs
    else splitChars sep (c :: acc) cs

/-- Python line.split(sep) for a single-character separator. -/
def splitOnChar (sep : Char) (s : String) : List String := splitChars sep [] s.data

/-- Whether the first character list begins with the second one. -/
def charsStart : List Char → List Char → Bool
  | _, [] => true
  | [], _ :: _ => false
  | c :: cs, d :: ds => c == d && charsStart cs ds

/-- Whether the second character list occurs contiguously in the first. -/
def charsHasSub : List Char → List Char → Bool
  | hay, needle =>
    match hay with
    | [] => needle.isEmpty
    | _ :: rest => charsStart hay needle || charsHasSub rest needle

/-- Python substring test `needle in hay` for strings (used for the
`UUID in items[0]` check). -/
def strContains (hay needle : String) : Bool := charsHasSub hay.data needle.data

/-- One spawned subprocess: its argument vector, the payload written to its
standard input by `communicate` (if any), and the extra environment entries
passed to it (the code never passes an `env=` keyword, so always `[]`). -/
structure Proc where
  argv : List String
  stdinData : Option String
  extraEnv : List (String × String)
  deriving DecidableEq, Repr

/-- A subprocess spawned with no stdin payload and the inherited environment
(`subprocess.check_call` / `check_output` as used throughout the code). -/
def pr (argv : List String) : Proc := ⟨argv, none, []⟩

/-- Control outcome of running a piece of the Python code:
it returned normally, it raised SystemExit(code) via sys.exit, or an
exception escaped uncaught (CPython then terminates with exit code 1). -/
inductive Ctl
  | ok
  | sysExit (code : Nat)
  | exn
  deriving DecidableEq, Repr

/-- The process exit code each control outcome produces:
SystemExit carries its code, an uncaught exception exits 1, and a normal
return lets main finish with code 0. -/
def Ctl.exitCode : Ctl → Nat
  | .ok => 0
  | .sysExit c => c
  | .exn => 1

/-- Mutable state threaded through one export attempt: the fields of the
submission object (`self.device`, `self.encrypted_device`) plus the parts of
the operating environment the code mutates (open device-mapper mappings, the
mount state, the existence of the mountpoint directory and of the temporary
directory) and everything written to the process error stream so far. -/
structure St where
  device : Option String
  encryptedDevice : String
  openMappings : List String
  mounted : Bool
  mountpointMade : Bool
  tmpdirDeleted : Bool
  stderr : List String
  deriving DecidableEq, Repr

/-- The first argument of exit_gracefully. The code usually passes a Status
`.value` string, but two call sites (usb/actions.py lines 114 and 121) pass
the Enum member itself, on which `sys.stderr.write` raises TypeError. -/
inductive MsgVal
  | strMsg (s : String)
  | enumMsg (e : ExportStatus)
  deriving DecidableEq, Repr

/-- The `e` argument of exit_gracefully. `noneV` stands for the default
False and for a None value (such as `ex.output` of a CalledProcessError from
check_call, which captures nothing); `excOut` is an exception object whose
`output` attribute is a string; `excNone` is an exception object whose
`output` attribute is None; `strV` is a plain string (no `output` attribute). -/
inductive PyVal
  | noneV
  | excOut (o : String)
  | excNone
  | strV (s : String)
  deriving DecidableEq, Repr

/-- Python truthiness of the `e` argument (`if e:`). -/
def PyVal.truthy : PyVal → Bool
  | .noneV => false
  | .excOut _ => true
  | .excNone => true
  | .strV s => s ≠ ""

/-- SDExport.exit_gracefully (export.py lines 116 to 139): write the message
and a newline to stderr (TypeError if the message is an Enum member), then,
when `e` is truthy, delete the temporary directory, recover the captured
output of `e` (an AttributeError or rmtree error yields the placeholder
string), write it and a newline to stderr — a None output makes the final
write raise TypeError — and finally sys.exit(0). -/
def exitGracefully (st : St) (msg : MsgVal) (e : PyVal) : St × Ctl :=
  match msg with
  | .enumMsg _ => (st, .exn)
  | .strMsg m =>
    let st1 := { st with stderr := st.stderr ++ [m, "\n"] }
    if e.truthy then
      let st2 := { st1 with tmpdirDeleted := true }
      match e with
      | .excOut o => ({ st2 with stderr := st2.stderr ++ [o, "\n"] }, .sysExit 0)
      | .excNone => (st2, .exn)
      | _ => ({ st2 with stderr := st2.stderr ++ ["<unknown exception>", "\n"] }, .sysExit 0)
    else
      (st1, .sysExit 0)

/-- Result of running one phase of the pipeline: final state, control
outcome, and the subprocesses spawned by the phase, in order. -/
structure PhaseRes where
  st : St
  ctl : Ctl
  procs : List Proc
  deriving DecidableEq, Repr

/-- Sequencing of phases: the continuation runs only when the previous phase
returned normally; spawned subprocess lists concatenate. -/
def PhaseRes.andThen (r : PhaseRes) (f : St → PhaseRes) : PhaseRes :=
  match r.ctl with
  | .ok => let r2 := f r.st; ⟨r2.st, r2.ctl, r.procs ++ r2.procs⟩
  | c => ⟨r.st, c, r.procs⟩

/-- The outcome every command of the environment would report, plus the
fixed inputs of one invocation. `cmdOk` decides the exit status of each
check_call / Popen command; the lsblk and cryptsetup outputs are given as
their stdout split into lines. -/
structure Env where
  lsblkDisks : List String
  removable : String → Bool
  lsblkTypesOk : String → Bool
  lsblkTypes : String → List String
  luksDumpOk : String → Bool
  luksDump : String → List String
  mapperExists0 : String → Bool
  mountpointExists0 : Bool
  cmdOk : List String → Bool
  tmpdir : String
  targetDirname : String

/-- Constant MOUNTPOINT from usb/actions.py. -/
def MOUNTPOINT : String := "/media/usb"

/-- Constant ENCRYPTED_DEVICE from usb/actions.py (initial mapped name). -/
def ENCRYPTED_DEVICE : String := "encrypted_volume"

/-- Initial state of one export attempt (USBActionMixin constructor). -/
def st0 (env : Env) : St :=
  ⟨none, ENCRYPTED_DEVICE, [], false, env.mountpointExists0, false, []⟩

/-- utils.safe_check_call: run the command; on failure call exit_gracefully
with the error message and `e = ex.output`, which check_call leaves as None. -/
def safeCheckCall (env : Env) (st : St) (cmd : List String) (errMsg : MsgVal) : PhaseRes :=
  if env.cmdOk cmd then ⟨st, .ok, [pr cmd]⟩
  else
    let (st1, c) := exitGracefully st errMsg .noneV
    ⟨st1, c, [pr cmd]⟩

/-- The removable device paths computed by USBActionMixin._get_connected_usbs
(usb/actions.py lines 28 to 57): the block devices reported by
`lsblk -o NAME,TYPE | grep disk` whose removable attribute reads 1,
each prefixed with /dev/. -/
def usbDevices (env : Env) : List String :=
  (env.lsblkDisks.filter env.removable).map (fun d => "/dev/" ++ d)

/-- USBActionMixin._get_connected_usbs together with check_usb_connected
(usb/actions.py lines 28 to 57 and 135 to 146). Spawns the lsblk|grep pair
and one `cat .../removable` per listed disk; then: zero removable devices →
exit USB_NOT_CONNECTED; exactly one → record it as the target device and,
when the `exit` flag is set, exit USB_CONNECTED; more than one → exit
ERROR_GENERIC. -/
def checkUsbConnected (env : Env) (exitFlag : Bool) (st : St) : PhaseRes :=
  let listProcs : List Proc :=
    [pr ["lsblk", "-o", "NAME,TYPE"], pr ["grep", "disk"]] ++
      env.lsblkDisks.map (fun d => pr ["cat", "/sys/class/block/" ++ d ++ "/removable"])
  match usbDevices env with
  | [] =>
    let (st1, c) := exitGracefully st (.strMsg ExportStatus.USB_NOT_CONNECTED.value) .noneV
    ⟨st1, c, listProcs⟩
  | [d] =>
    let st1 := { st with device := some d }
    if exitFlag then
      let (st2, c) := exitGracefully st1 (.strMsg ExportStatus.USB_CONNECTED.value) .noneV
      ⟨st2, c, listProcs⟩
    else ⟨st1, .ok, listProcs⟩
  | _ =>
    let (st1, c) := exitGracefully st (.strMsg ExportStatus.ERROR_GENERIC.value) .noneV
    ⟨st1, c, listProcs⟩

/-- USBActionMixin.set_extracted_device_name (usb/actions.py lines 59 to 73):
run `lsblk -o TYPE --noheadings DEVICE`, count the output lines equal to
"part"; more than one partition exits USB_ENCRYPTION_NOT_SUPPORTED; zero
keeps the whole disk as target; exactly one appends "1" to the device path.
A failing lsblk also exits USB_ENCRYPTION_NOT_SUPPORTED. A missing device
(None) would make subprocess raise TypeError. -/
def setExtractedDeviceName (env : Env) (st : St) : PhaseRes :=
  match st.device with
  | none => ⟨st, .exn, []⟩
  | some d =>
    let lsCmd := ["lsblk", "-o", "TYPE", "--noheadings", d]
    if env.lsblkTypesOk d then
      let partitionCount := (env.lsblkTypes d).count "part"
      if partitionCount > 1 then
        let (st1, c) :=
          exitGracefully st (.strMsg ExportStatus.USB_ENCRYPTION_NOT_SUPPORTED.value) .noneV
        ⟨st1, c, [pr lsCmd]⟩
      else
        ⟨{ st with device := some (if partitionCount == 0 then d else d ++ "1") }, .ok,
          [pr lsCmd]⟩
    else
      let (st1, c) :=
        exitGracefully st (.strMsg ExportStatus.USB_ENCRYPTION_NOT_SUPPORTED.value) .noneV
      ⟨st1, c, [pr lsCmd]⟩

/-- The loop over the luksDump output lines in unlock_luks_volume
(usb/actions.py lines 92 to 96): split each line on tab; when the first
item contains "UUID", the mapped name becomes "luks-" followed by the second
item (IndexError, modelled as `none`, if the line has no second item). -/
def parseLuksName : List String → String → Option String
  | [], cur => some cur
  | line :: rest, cur =>
    let items := splitOnChar '\t' line
    if strContains (items.headD "") "UUID" then
      match items with
      | _ :: second :: _ => parseLuksName rest ("luks-" ++ second)
      | _ => none
    else parseLuksName rest cur

/-- USBActionMixin.unlock_luks_volume (usb/actions.py lines 87 to 114):
set the extracted device name, read the LUKS header with
`sudo cryptsetup luksDump`, derive the mapped name from the header UUID,
and when /dev/mapper does not already hold that name, spawn
`sudo cryptsetup luksOpen` feeding the passphrase over its standard input;
a nonzero luksOpen exits USB_BAD_PASSPHRASE. A failing luksDump is caught
as CalledProcessError and handed to exit_gracefully as the bare Enum member
USB_ENCRYPTION_NOT_SUPPORTED (no .value), whose stderr write raises. -/
def unlockLuks (env : Env) (key : String) (st : St) : PhaseRes :=
  let r := setExtractedDeviceName env st
  match r.ctl with
  | .ok =>
    match r.st.device with
    | none => ⟨r.st, .exn, r.procs⟩
    | some d =>
      let dumpProc := pr ["sudo", "cryptsetup", "luksDump", d]
      if env.luksDumpOk d then
        match parseLuksName (env.luksDump d) r.st.encryptedDevice with
        | none => ⟨r.st, .exn, r.procs ++ [dumpProc]⟩
        | some enc =>
          let st1 := { r.st with encryptedDevice := enc }
          if env.mapperExists0 enc || st1.openMappings.contains enc then
            ⟨st1, .ok, r.procs ++ [dumpProc]⟩
          else
            let openArgv := ["sudo", "cryptsetup", "luksOpen", d, enc]
            let openProc : Proc := ⟨openArgv, some key, []⟩
            if env.cmdOk openArgv then
              ⟨{ st1 with openMappings := enc :: st1.openMappings }, .ok,
                r.procs ++ [dumpProc, openProc]⟩
            else
              let (st2, c) :=
                exitGracefully st1 (.strMsg ExportStatus.USB_BAD_PASSPHRASE.value) .noneV
              ⟨st2, c, r.procs ++ [dumpProc, openProc]⟩
      else
        let (st2, c) :=
          exitGracefully r.st (.enumMsg ExportStatus.USB_ENCRYPTION_NOT_SUPPORTED) .noneV
        ⟨st2, c, r.procs ++ [dumpProc]⟩
  | c => ⟨r.st, c, r.procs⟩

/-- USBActionMixin.mount_volume (usb/actions.py lines 116 to 133): create the
mountpoint when absent (through safe_check_call whose error message here is
the bare Enum member ERROR_USB_MOUNT), mount the mapped device, then chown
the mountpoint; mount and chown failures exit with ERROR_USB_MOUNT.value.
No cryptsetup command is ever issued here. -/
def mountVolume (env : Env) (st : St) : PhaseRes :=
  let step1 : PhaseRes :=
    if st.mountpointMade then ⟨st, .ok, []⟩
    else
      let mkdirRes := safeCheckCall env st ["sudo", "mkdir", MOUNTPOINT]
        (.enumMsg ExportStatus.ERROR_USB_MOUNT)
      match mkdirRes.ctl with
      | .ok => ⟨{ mkdirRes.st with mountpointMade := true }, .ok, mkdirRes.procs⟩
      | c => ⟨mkdirRes.st, c, mkdirRes.procs⟩
  match step1.ctl with
  | .ok =>
    let st1 := step1.st
    let mapped := "/dev/mapper/" ++ st1.encryptedDevice
    let mountCmd := ["sudo", "mount", mapped, MOUNTPOINT]
    if env.cmdOk mountCmd then
      let st2 := { st1 with mounted := true }
      let chownCmd := ["sudo", "chown", "-R", "user:user", MOUNTPOINT]
      if env.cmdOk chownCmd then
        ⟨st2, .ok, step1.procs ++ [pr mountCmd, pr chownCmd]⟩
      else
        let (st3, c) := exitGracefully st2 (.strMsg ExportStatus.ERROR_USB_MOUNT.value) .noneV
        ⟨st3, c, step1.procs ++ [pr mountCmd, pr chownCmd]⟩
    else
      let (st2, c) := exitGracefully st1 (.strMsg ExportStatus.ERROR_USB_MOUNT.value) .noneV
      ⟨st2, c, step1.procs ++ [pr mountCmd]⟩
  | c => ⟨step1.st, c, step1.procs⟩

/-- The notify-send invocation of utils.popup_message. -/
def notifySendCmd (msg : String) : List String :=
  ["notify-send", "--expire-time", "3000", "--icon",
   "/usr/share/securedrop/icons/sd-logo.png", "SecureDrop: " ++ msg]

/-- The try/except body of USBActionMixin.copy_submission (usb/actions.py
lines 152 to 161): mkdir the target directory under the mountpoint, copy the
extracted export_data into it, then popup a success message; a failing mkdir
or cp is caught and reported through exit_gracefully as ERROR_USB_WRITE. -/
def copyBody (env : Env) (tmpdir targetDirname : String) (st : St) : PhaseRes :=
  let targetPath := MOUNTPOINT ++ "/" ++ targetDirname
  let mkdirCmd := ["mkdir", targetPath]
  if env.cmdOk mkdirCmd then
    let exportData := tmpdir ++ "/export_data/"
    let cpCmd := ["cp", "-r", exportData, targetPath]
    if env.cmdOk cpCmd then
      let nRes := safeCheckCall env st (notifySendCmd "Files exported successfully to disk.")
        (.strMsg "Error sending notification:")
      ⟨nRes.st, nRes.ctl, [pr mkdirCmd, pr cpCmd] ++ nRes.procs⟩
    else
      let (st1, c) := exitGracefully st (.strMsg ExportStatus.ERROR_USB_WRITE.value) .noneV
      ⟨st1, c, [pr mkdirCmd, pr cpCmd]⟩
  else
    let (st1, c) := exitGracefully st (.strMsg ExportStatus.ERROR_USB_WRITE.value) .noneV
    ⟨st1, c, [pr mkdirCmd]⟩

/-- The finally block of USBActionMixin.copy_submission (usb/actions.py
lines 162 to 175): sync, umount, luksClose, rm -rf tmpdir, then sys.exit(0).
Each of the four commands runs through check_call, so the first failure
raises CalledProcessError, aborting the remaining steps. -/
def teardownSeq (env : Env) (tmpdir : String) (st : St) : PhaseRes :=
  let syncCmd := ["sync"]
  if env.cmdOk syncCmd then
    let umountCmd := ["sudo", "umount", MOUNTPOINT]
    if env.cmdOk umountCmd then
      let st1 := { st with mounted := false }
      let closeCmd := ["sudo", "cryptsetup", "luksClose", st.encryptedDevice]
      if env.cmdOk closeCmd then
        let st2 := { st1 with openMappings := st1.openMappings.erase st.encryptedDevice }
        let rmCmd := ["rm", "-rf", tmpdir]
        if env.cmdOk rmCmd then
          ⟨{ st2 with tmpdirDeleted := true }, .sysExit 0,
            [pr syncCmd, pr umountCmd, pr closeCmd, pr rmCmd]⟩
        else ⟨st2, .exn, [pr syncCmd, pr umountCmd, pr closeCmd, pr rmCmd]⟩
      else ⟨st1, .exn, [pr syncCmd, pr umountCmd, pr closeCmd]⟩
    else ⟨st, .exn, [pr syncCmd, pr umountCmd]⟩
  else ⟨st, .exn, [pr syncCmd]⟩

/-- USBActionMixin.copy_submission (usb/actions.py lines 148 to 175): run the
try/except body, then the finally block runs unconditionally — even when the
body ended in SystemExit from exit_gracefully. If the finally block raises,
that exception replaces the pending outcome; otherwise its own sys.exit(0)
becomes the outcome. -/
def copySubmission (env : Env) (tmpdir targetDirname : String) (st : St) : PhaseRes :=
  let body := copyBody env tmpdir targetDirname st
  let fin := teardownSeq env tmpdir body.st
  match fin.ctl with
  | .ok => ⟨fin.st, body.ctl, body.procs ++ fin.procs⟩
  | c => ⟨fin.st, c, body.procs ++ fin.procs⟩

/-- USBExportAction.run (usb/actions.py lines 182 to 192): the full disk
export pipeline: locate the single removable device, unlock the LUKS volume
with the submission passphrase, mount it, and copy the submission. -/
def runExport (env : Env) (key : String) : PhaseRes :=
  (((checkUsbConnected env false (st0 env)).andThen
      (fun s => unlockLuks env key s)).andThen
      (fun s => mountVolume env s)).andThen
      (fun s => copySubmission env env.tmpdir env.targetDirname s)

/-- SDExport.mount_volume (export.py lines 223 to 246), the legacy variant:
the mkdir runs through a bare check_call (an uncaught error if it fails);
mount and chown run inside a try whose except handler first re-locks the
container with `sudo cryptsetup luksClose` (a bare check_call) and only then
exits gracefully with the plain string "ERROR_USB_MOUNT". -/
def sdMountVolume (env : Env) (st : St) : PhaseRes :=
  let step1 : PhaseRes :=
    if st.mountpointMade then ⟨st, .ok, []⟩
    else
      let cmd := ["sudo", "mkdir", MOUNTPOINT]
      if env.cmdOk cmd then ⟨{ st with mountpointMade := true }, .ok, [pr cmd]⟩
      else ⟨st, .exn, [pr cmd]⟩
  match step1.ctl with
  | .ok =>
    let st1 := step1.st
    let mapped := "/dev/mapper/" ++ st1.encryptedDevice
    let mountCmd := ["sudo", "mount", mapped, MOUNTPOINT]
    let chownCmd := ["sudo", "chown", "-R", "user:user", MOUNTPOINT]
    let closeCmd := ["sudo", "cryptsetup", "luksClose", st1.encryptedDevice]
    if env.cmdOk mountCmd then
      let st2 := { st1 with mounted := true }
      if env.cmdOk chownCmd then
        ⟨st2, .ok, step1.procs ++ [pr mountCmd, pr chownCmd]⟩
      else
        if env.cmdOk closeCmd then
          let st3 := { st2 with openMappings := st2.openMappings.erase st1.encryptedDevice }
          let (st4, c) := exitGracefully st3 (.strMsg "ERROR_USB_MOUNT") .noneV
          ⟨st4, c, step1.procs ++ [pr mountCmd, pr chownCmd, pr closeCmd]⟩
        else ⟨st2, .exn, step1.procs ++ [pr mountCmd, pr chownCmd, pr closeCmd]⟩
    else
      if env.cmdOk closeCmd then
        let st2 := { st1 with openMappings := st1.openMappings.erase st1.encryptedDevice }
        let (st3, c) := exitGracefully st2 (.strMsg "ERROR_USB_MOUNT") .noneV
        ⟨st3, c, step1.procs ++ [pr mountCmd, pr closeCmd]⟩
      else ⟨st1, .exn, step1.procs ++ [pr mountCmd, pr closeCmd]⟩
  | _ => step1

/-- Metadata.SUPPORTED_EXPORT_METHODS (export.py lines 32 to 38). -/
def SUPPORTED_EXPORT_METHODS : List String :=
  ["usb-test", "disk", "disk-test", "printer", "printer-test"]

/-- Metadata.SUPPORTED_ENCRYPTION_METHODS (export.py line 39). -/
def SUPPORTED_ENCRYPTION_METHODS : List String := ["luks"]

/-- The fields of archive metadata read by Metadata.__init__: json .get
returns None when the key is absent, hence the Option types. -/
structure Metadata where
  exportMethod : Option String
  encryptionMethod : Option String
  deriving DecidableEq, Repr

/-- Metadata.is_valid (export.py lines 63 to 81): the export method must be
one of the supported methods (None never is), and for the "disk" method the
encryption method must additionally be a supported one. -/
def Metadata.is_valid (m : Metadata) : Bool :=
  match m.exportMethod with
  | none => false
  | some em =>
    if SUPPORTED_EXPORT_METHODS.contains em then
      if em == "disk" then
        match m.encryptionMethod with
        | some enc => SUPPORTED_ENCRYPTION_METHODS.contains enc
        | none => false
      else true
    else false

/-- The submission-object methods __main__ can invoke after validation. -/
inductive MainOp
  | checkLuksVolumeOp
  | unlockLuksVolumeOp
  | mountVolumeOp
  | copySubmissionOp
  | checkPrinterConnectedOp
  | setupPrinterOp
  | printAllFilesOp
  | printTestPageOp
  | reportStatus (s : String)
  deriving DecidableEq, Repr

/-- The dispatch of main.py __main__ (main.py lines 17 to 37) after the
metadata was parsed: when is_valid holds, branch on the export method
("disk-check", "disk", "printer-check", "printer", "printer-test", in that
order, anything else falling through with no action); otherwise exit
gracefully with ERROR_ARCHIVE_METADATA. -/
def mainDispatch (m : Metadata) : List MainOp :=
  if m.is_valid then
    match m.exportMethod with
    | some "disk-check" => [.checkLuksVolumeOp]
    | some "disk" => [.unlockLuksVolumeOp, .mountVolumeOp, .copySubmissionOp]
    | some "printer-check" => [.checkPrinterConnectedOp]
    | some "printer" => [.setupPrinterOp, .printAllFilesOp]
    | some "printer-test" => [.setupPrinterOp, .printTestPageOp]
    | _ => []
  else [.reportStatus ExportStatus.ERROR_ARCHIVE_METADATA.value]

/-! Concrete environments: a fully successful world and variants in which
selected commands fail, used to evaluate the pipeline at concrete inputs. -/

/-- A world with a single removable unpartitioned LUKS disk sda, no open
mapping, an existing mountpoint, and every command succeeding. -/
def envHappy : Env where
  lsblkDisks := ["sda"]
  removable := fun d => d == "sda"
  lsblkTypesOk := fun _ => true
  lsblkTypes := fun _ => ["disk", ""]
  luksDumpOk := fun _ => true
  luksDump := fun _ => ["UUID:\t123abc", ""]
  mapperExists0 := fun _ => false
  mountpointExists0 := true
  cmdOk := fun _ => true
  tmpdir := "/tmp/t"
  targetDirname := "sd-export-20260101"

/-- The cp command of the happy-path copy phase. -/
def cpCmdHappy : List String :=
  ["cp", "-r", "/tmp/t/export_data/", "/media/usb/sd-export-20260101"]

/-- envHappy but the copy fails and so does the teardown umount. -/
def envWriteUmountFail : Env :=
  { envHappy with
    cmdOk := fun c => !(c == cpCmdHappy) && !(c == ["sudo", "umount", "/media/usb"]) }

/-- envHappy but the mount command fails. -/
def envMountFail : Env :=
  { envHappy with
    cmdOk := fun c => !(c == ["sudo", "mount", "/dev/mapper/luks-123abc", "/media/usb"]) }

/-- envHappy but the copy fails and so does the teardown sync. -/
def envWriteSyncFail : Env :=
  { envHappy with cmdOk := fun c => !(c == cpCmdHappy) && !(c == ["sync"]) }

/-- envHappy but the success notification fails. -/
def envNotifyFail : Env :=
  { envHappy with
    cmdOk := fun c => !(c == notifySendCmd "Files exported successfully to disk.") }

/-- envHappy with no removable device at all. -/
def envNoDevice : Env := { envHappy with removable := fun _ => false }

/-- envHappy with two removable devices. -/
def envTwoDevices : Env :=
  { envHappy with lsblkDisks := ["sda", "sdb"], removable := fun _ => true }

/-- A world where sda has one partition: the first name extraction moves the
target from /dev/sda to /dev/sda1, and a second extraction moves it on to
/dev/sda11, whose LUKS header (as this world reports it) has another UUID. -/
def envOnePartition : Env :=
  { envHappy with
    lsblkTypes := fun d =>
      if d == "/dev/sda" then ["disk", "part", ""]
      else if d == "/dev/sda1" then ["part", ""]
      else [""]
    luksDump := fun d =>
      if d == "/dev/sda1" then ["UUID:\tabc", ""]
      else if d == "/dev/sda11" then ["UUID:\tzzz", ""]
      else [""] }

/-- A world where the target disk has two partitions. -/
def envTwoPartitions : Env :=
  { envHappy with lsblkTypes := fun _ => ["disk", "part", "part", ""] }

/-- envHappy but mounting the legacy mapped device encrypted_volume fails. -/
def envSdMountFail : Env :=
  { envHappy with
    cmdOk := fun c => !(c == ["sudo", "mount", "/dev/mapper/encrypted_volume", "/media/usb"]) }

/-- State after a legacy unlock of encrypted_volume, before mounting. -/
def stSdUnlocked : St :=
  { st0 envSdMountFail with openMappings := ["encrypted_volume"] }

/-- State with the device already discovered, before a first unlock. -/
def stDiscovered : St := { st0 envOnePartition with device := some "/dev/sda" }

/-- envHappy but only the copy fails; the teardown commands all succeed. -/
def envWriteFail : Env := { envHappy with cmdOk := fun c => !(c == cpCmdHappy) }

/-- State after the happy-path unlock, before mounting. -/
def stUnlocked : St :=
  { st0 envMountFail with
    device := some "/dev/sda", encryptedDevice := "luks-123abc",
    openMappings := ["luks-123abc"] }

/-- Relation between two phase results that agree on final state, control
outcome and the argv projection of every spawned process (they may differ
only in stdin payloads). -/
def Sim (r1 r2 : PhaseRes) : Prop :=
  r1.st = r2.st ∧ r1.ctl = r2.ctl ∧ r1.procs.map Proc.argv = r2.procs.map Proc.argv

/-- Every process of a phase inherits the environment unchanged and receives
either no stdin payload or exactly the passphrase. -/
def KeyOnlyStdin (k : String) (r : PhaseRes) : Prop :=
  ∀ p ∈ r.procs, p.extraEnv = [] ∧ (p.stdinData = none ∨ p.stdinData = some k)

/-- A phase adds at most one Status token to stderr, adds nothing at all
when it returns normally, and any sys.exit it performs carries code 0. -/
def GoodPhase (st : St) (r : PhaseRes) : Prop :=
  statusCount r.st.stderr ≤ statusCount st.stderr + 1 ∧
  (r.ctl = Ctl.ok → r.st.stderr = st.stderr) ∧
  ∀ c, r.ctl = Ctl.sysExit c → c = 0

/-! Helper lemmas about the phase combinators, shared by the claims. -/

/-- The second unlock parse pass is stable: feeding the result of one pass
back in as the starting name reproduces the same result. -/
theorem parseLuksName_idem (lines : List String) :
    ∀ x y, parseLuksName lines x = some y → parseLuksName lines y = some y := by
  induction lines with
  | nil => intro x y _; rfl
  | cons line rest ih =>
    intro x y h
    unfold parseLuksName at h ⊢
    by_cases hc : strContains ((splitOnChar '\t' line).headD "") "UUID" = true
    · rw [if_pos hc] at h ⊢
      rcases hs : splitOnChar '\t' line with _ | ⟨a, _ | ⟨b, tl⟩⟩ <;> simp_all
    · rw [if_neg hc] at h ⊢
      exact ih x y h

/-- Status tokens are counted piecewise over concatenated stderr output. -/
theorem statusCount_append (a b : List String) :
    statusCount (a ++ b) = statusCount a + statusCount b := by
  simp [statusCount, List.filter_append]

/-- Evaluation of exit_gracefully on a string message with no diagnostic. -/
theorem exitGracefully_str (st : St) (m : String) :
    exitGracefully st (.strMsg m) .noneV =
      ({ st with stderr := st.stderr ++ [m, "\n"] }, .sysExit 0) := rfl

/-- Evaluation of exit_gracefully on a bare Enum member: the stderr write
raises TypeError, so nothing is written and the exception escapes. -/
theorem exitGracefully_enum (st : St) (e : ExportStatus) (v : PyVal) :
    exitGracefully st (.enumMsg e) v = (st, .exn) := rfl

/-- copy_submission issues exactly the commands of its body followed by the
commands of its finally block. -/
theorem copySubmission_procs (env : Env) (tmp tgt : String) (st : St) :
    (copySubmission env tmp tgt st).procs =
      (copyBody env tmp tgt st).procs ++
        (teardownSeq env tmp (copyBody env tmp tgt st).st).procs := by
  unfold copySubmission
  dsimp only
  split <;> rfl

/-- Sequencing preserves the one-Status-token-and-clean-exit discipline. -/
theorem goodPhase_andThen {st : St} {r : PhaseRes} {f : St → PhaseRes}
    (h : GoodPhase st r) (hf : ∀ s, GoodPhase s (f s)) : GoodPhase st (r.andThen f) := by
  obtain ⟨hcnt, hok, hex⟩ := h
  unfold PhaseRes.andThen
  cases hc : r.ctl <;> dsimp only
  case ok =>
    obtain ⟨hcnt2, hok2, hex2⟩ := hf r.st
    have he := hok hc
    refine ⟨?_, ?_, hex2⟩
    · rw [he] at hcnt2
      exact hcnt2
    · intro hco
      rw [hok2 hco, he]
  case sysExit c =>
    exact ⟨hcnt, fun hh => absurd hh (by simp), fun c' h' => hex c' (hc.trans h')⟩
  case exn =>
    exact ⟨hcnt, fun hh => absurd hh (by simp), fun c' h' => absurd h' (by simp)⟩

/-- The device-connected check obeys the Status discipline. -/
theorem goodPhase_checkUsb (env : Env) (flag : Bool) (st : St) :
    GoodPhase st (checkUsbConnected env flag st) := by
  unfold GoodPhase checkUsbConnected
  rcases h : usbDevices env with _ | ⟨d, _ | ⟨e, tl⟩⟩ <;> cases flag <;>
    simp [exitGracefully, PyVal.truthy, statusCount_append] <;>
      constructor <;> first
        | decide
        | exact fun c hc => (Ctl.sysExit.inj hc).symm

/-- The device-name extraction obeys the Status discipline. -/
theorem goodPhase_setExtracted (env : Env) (st : St) :
    GoodPhase st (setExtractedDeviceName env st) := by
  unfold GoodPhase setExtractedDeviceName
  rcases hd : st.device with _ | d
  · simp
  · by_cases hok : env.lsblkTypesOk d = true <;>
      by_cases hgt : (env.lsblkTypes d).count "part" > 1 <;>
        simp [hok, hgt, exitGracefully, PyVal.truthy, statusCount_append] <;>
          constructor <;> first
            | decide
            | exact fun c hc => (Ctl.sysExit.inj hc).symm

/-- The unlock phase obeys the Status discipline. -/
theorem goodPhase_unlock (env : Env) (k : String) (st : St) :
    GoodPhase st (unlockLuks env k st) := by
  obtain ⟨hcnt, hok, hex⟩ := goodPhase_setExtracted env st
  unfold unlockLuks
  dsimp only
  cases hc : (setExtractedDeviceName env st).ctl <;> dsimp only
  case ok =>
    have he := hok hc
    rcases hd : (setExtractedDeviceName env st).st.device with _ | d <;> dsimp only
    · exact ⟨hcnt, fun hh => absurd hh (by simp), fun c' h' => absurd h' (by simp)⟩
    · by_cases hdump : env.luksDumpOk d = true
      · rw [if_pos hdump]
        rcases hp : parseLuksName (env.luksDump d)
            (setExtractedDeviceName env st).st.encryptedDevice with _ | enc <;> dsimp only
        · exact ⟨hcnt, fun hh => absurd hh (by simp), fun c' h' => absurd h' (by simp)⟩
        · by_cases hmap : (env.mapperExists0 enc ||
              (setExtractedDeviceName env st).st.openMappings.contains enc) = true
          · rw [if_pos hmap]
            exact ⟨by simpa [he] using hcnt, fun _ => by simpa using he,
              fun c' h' => absurd h' (by simp)⟩
          · rw [if_neg hmap]
            by_cases hopen : env.cmdOk ["sudo", "cryptsetup", "luksOpen", d, enc] = true
            · rw [if_pos hopen]
              exact ⟨by simpa [he] using hcnt, fun _ => by simpa using he,
                fun c' h' => absurd h' (by simp)⟩
            · rw [if_neg hopen, exitGracefully_str]
              refine ⟨?_, fun hh => absurd hh (by simp), fun c' h' => ?_⟩
              · simp only [statusCount_append, he]
                have hone : statusCount [ExportStatus.USB_BAD_PASSPHRASE.value, "\n"] ≤ 1 := by
                  decide
                omega
              · simp only [] at h'
                simp at h'
                omega
      · rw [if_neg hdump, exitGracefully_enum]
        exact ⟨hcnt, fun hh => absurd hh (by simp), fun c' h' => absurd h' (by simp)⟩
  case sysExit c =>
    exact ⟨hcnt, fun hh => absurd hh (by simp), fun c' h' => hex c' (hc.trans h')⟩
  case exn =>
    exact ⟨hcnt, fun hh => absurd hh (by simp), fun c' h' => absurd h' (by simp)⟩

/-- The mount phase obeys the Status discipline. -/
theorem goodPhase_mount (env : Env) (st : St) :
    GoodPhase st (mountVolume env st) := by
  unfold GoodPhase mountVolume safeCheckCall
  by_cases hm : st.mountpointMade <;>
    by_cases hmk : env.cmdOk ["sudo", "mkdir", MOUNTPOINT] = true <;>
      by_cases hmt : env.cmdOk
          ["sudo", "mount", "/dev/mapper/" ++ st.encryptedDevice, MOUNTPOINT] = true <;>
        by_cases hch : env.cmdOk ["sudo", "chown", "-R", "user:user", MOUNTPOINT] = true <;>
          simp [hm, hmk, hmt, hch, exitGracefully, PyVal.truthy, statusCount_append] <;>
            constructor <;> first
              | decide
              | exact fun c hc => (Ctl.sysExit.inj hc).symm

/-- The copy try/except body obeys the Status discipline. -/
theorem goodPhase_copyBody (env : Env) (tmp tgt : String) (st : St) :
    GoodPhase st (copyBody env tmp tgt st) := by
  unfold copyBody safeCheckCall
  by_cases h1 : env.cmdOk ["mkdir", MOUNTPOINT ++ "/" ++ tgt] = true
  · rw [if_pos h1]
    dsimp only
    by_cases h2 : env.cmdOk
        ["cp", "-r", tmp ++ "/export_data/", MOUNTPOINT ++ "/" ++ tgt] = true
    · rw [if_pos h2]
      by_cases h3 : env.cmdOk (notifySendCmd "Files exported successfully to disk.") = true
      · rw [if_pos h3]
        dsimp only
        exact ⟨Nat.le_succ _, fun _ => rfl, fun c' h' => absurd h' (by simp)⟩
      · rw [if_neg h3, exitGracefully_str]
        dsimp only
        refine ⟨?_, fun hh => absurd hh (by simp), fun c' h' => ?_⟩
        · have hz : statusCount ["Error sending notification:", "\n"] = 0 := by decide
          rw [statusCount_append]
          omega
        · simp at h'
          omega
    · rw [if_neg h2, exitGracefully_str]
      dsimp only
      refine ⟨?_, fun hh => absurd hh (by simp), fun c' h' => ?_⟩
      · have hz : statusCount [ExportStatus.ERROR_USB_WRITE.value, "\n"] = 1 := by decide
        rw [statusCount_append]
        omega
      · simp at h'
        omega
  · rw [if_neg h1, exitGracefully_str]
    dsimp only
    refine ⟨?_, fun hh => absurd hh (by simp), fun c' h' => ?_⟩
    · have hz : statusCount [ExportStatus.ERROR_USB_WRITE.value, "\n"] = 1 := by decide
      rw [statusCount_append]
      omega
    · simp at h'
      omega

/-- The finally block writes nothing to stderr, never returns normally, and
any sys.exit it performs carries code 0. -/
theorem teardownSeq_facts (env : Env) (tmp : String) (st : St) :
    (teardownSeq env tmp st).st.stderr = st.stderr ∧
    (∀ c, (teardownSeq env tmp st).ctl = Ctl.sysExit c → c = 0) ∧
    (teardownSeq env tmp st).ctl ≠ Ctl.ok := by
  by_cases h1 : env.cmdOk ["sync"] = true <;>
    by_cases h2 : env.cmdOk ["sudo", "umount", MOUNTPOINT] = true <;>
      by_cases h3 : env.cmdOk
          ["sudo", "cryptsetup", "luksClose", st.encryptedDevice] = true <;>
        by_cases h4 : env.cmdOk ["rm", "-rf", tmp] = true <;>
          simp [teardownSeq, h1, h2, h3, h4]

/-- copy_submission obeys the Status discipline. -/
theorem goodPhase_copy (env : Env) (tmp tgt : String) (st : St) :
    GoodPhase st (copySubmission env tmp tgt st) := by
  obtain ⟨hcb, _, _⟩ := goodPhase_copyBody env tmp tgt st
  obtain ⟨hts, htex, htok⟩ := teardownSeq_facts env tmp (copyBody env tmp tgt st).st
  unfold copySubmission
  dsimp only
  cases hc : (teardownSeq env tmp (copyBody env tmp tgt st).st).ctl <;> dsimp only
  case ok => exact absurd hc htok
  case sysExit c =>
    refine ⟨?_, fun hh => absurd hh (by simp), fun c' h' => htex c' (hc.trans (by simpa using h'))⟩
    rw [hts]
    exact hcb
  case exn =>
    refine ⟨?_, fun hh => absurd hh (by simp), fun c' h' => absurd h' (by simp)⟩
    rw [hts]
    exact hcb

/-- Sim is reflexive. -/
theorem sim_refl (r : PhaseRes) : Sim r r := ⟨rfl, rfl, rfl⟩

/-- Sequencing preserves Sim. -/
theorem sim_andThen {r1 r2 : PhaseRes} {f g : St → PhaseRes} (h : Sim r1 r2)
    (hf : ∀ s, Sim (f s) (g s)) : Sim (r1.andThen f) (r2.andThen g) := by
  obtain ⟨hst, hctl, hpr⟩ := h
  unfold PhaseRes.andThen
  rw [← hctl, ← hst]
  cases hc : r1.ctl <;> dsimp only
  case ok =>
    obtain ⟨h1, h2, h3⟩ := hf r1.st
    exact ⟨h1, h2, by simp only [List.map_append, hpr, h3]⟩
  case sysExit c => exact ⟨rfl, rfl, hpr⟩
  case exn => exact ⟨rfl, rfl, hpr⟩

/-- The two runs of the unlock phase under different passphrases agree on
state, control and spawned argv lists: the passphrase reaches only the stdin
payload of the luksOpen subprocess. -/
theorem sim_unlock (env : Env) (k k' : String) (st : St) :
    Sim (unlockLuks env k st) (unlockLuks env k' st) := by
  unfold unlockLuks
  dsimp only
  cases hc : (setExtractedDeviceName env st).ctl <;> dsimp only
  case ok =>
    rcases hd : (setExtractedDeviceName env st).st.device with _ | d <;> dsimp only
    · exact sim_refl _
    · by_cases hdump : env.luksDumpOk d = true
      · simp only [if_pos hdump]
        rcases hp : parseLuksName (env.luksDump d)
            (setExtractedDeviceName env st).st.encryptedDevice with _ | enc <;> dsimp only
        · exact sim_refl _
        · by_cases hmap : (env.mapperExists0 enc ||
              (setExtractedDeviceName env st).st.openMappings.contains enc) = true
          · simp only [if_pos hmap]
            exact sim_refl _
          · simp only [if_neg hmap]
            by_cases hopen : env.cmdOk ["sudo", "cryptsetup", "luksOpen", d, enc] = true
            · simp only [if_pos hopen]
              exact ⟨rfl, rfl, by simp [pr]⟩
            · simp only [if_neg hopen]
              exact ⟨rfl, rfl, by simp [pr]⟩
      · simp only [if_neg hdump]
        exact sim_refl _
  case sysExit c => exact sim_refl _
  case exn => exact sim_refl _

/-- The two runs of the whole export under different passphrases agree on
state, control and spawned argv lists. -/
theorem sim_runExport (env : Env) (k1 k2 : String) :
    Sim (runExport env k1) (runExport env k2) := by
  unfold runExport
  exact sim_andThen
    (sim_andThen
      (sim_andThen (sim_refl _) (fun s => sim_unlock env k1 k2 s))
      (fun s => sim_refl _))
    (fun s => sim_refl _)

/-- Sequencing preserves the stdin discipline. -/
theorem keyOnly_andThen {k : String} {r : PhaseRes} {f : St → PhaseRes}
    (h : KeyOnlyStdin k r) (hf : ∀ s, KeyOnlyStdin k (f s)) :
    KeyOnlyStdin k (r.andThen f) := by
  unfold PhaseRes.andThen
  cases r.ctl <;> dsimp only
  case ok =>
    intro p hp
    rcases List.mem_append.mp hp with h1 | h2
    exacts [h p h1, hf r.st p h2]
  case sysExit c => exact fun p hp => h p hp
  case exn => exact fun p hp => h p hp

/-- The device-connected check spawns only stdin-free processes. -/
theorem keyOnly_checkUsb (env : Env) (flag : Bool) (k : String) (st : St) :
    KeyOnlyStdin k (checkUsbConnected env flag st) := by
  unfold checkUsbConnected
  rcases h : usbDevices env with _ | ⟨d, _ | ⟨e, tl⟩⟩ <;> cases flag <;> dsimp only <;>
    · intro p hp
      simp only [Bool.false_eq_true, if_false, if_true, List.cons_append,
        List.nil_append, List.mem_cons, List.not_mem_nil, or_false,
        List.mem_map] at hp
      rcases hp with rfl | rfl | ⟨d2, _, rfl⟩ <;> exact ⟨rfl, Or.inl rfl⟩

/-- The device-name extraction spawns only stdin-free processes. -/
theorem keyOnly_setExtracted (env : Env) (k : String) (st : St) :
    KeyOnlyStdin k (setExtractedDeviceName env st) := by
  unfold setExtractedDeviceName
  rcases hd : st.device with _ | d <;> dsimp only
  · intro p hp
    simp at hp
  · by_cases hok : env.lsblkTypesOk d = true
    · rw [if_pos hok]
      by_cases hgt : (env.lsblkTypes d).count "part" > 1 <;>
        · simp only [hgt, if_true, if_false]
          intro p hp
          simp only [List.mem_cons, List.not_mem_nil, or_false, gt_iff_lt, if_pos, if_neg] at hp
          first
            | (rcases hp with rfl; exact ⟨rfl, Or.inl rfl⟩)
            | (split at hp <;> (rcases hp with rfl; exact ⟨rfl, Or.inl rfl⟩))
    · rw [if_neg hok]
      intro p hp
      simp only [List.mem_cons, List.not_mem_nil, or_false] at hp
      rcases hp with rfl
      exact ⟨rfl, Or.inl rfl⟩

/-- The unlock phase feeds the passphrase only over stdin of luksOpen. -/
theorem keyOnly_unlock (env : Env) (k : String) (st : St) :
    KeyOnlyStdin k (unlockLuks env k st) := by
  have hse := keyOnly_setExtracted env k st
  unfold unlockLuks
  dsimp only
  cases hc : (setExtractedDeviceName env st).ctl <;> dsimp only
  case ok =>
    rcases hd : (setExtractedDeviceName env st).st.device with _ | d <;> dsimp only
    · exact fun p hp => hse p hp
    · by_cases hdump : env.luksDumpOk d = true
      · rw [if_pos hdump]
        rcases hp2 : parseLuksName (env.luksDump d)
            (setExtractedDeviceName env st).st.encryptedDevice with _ | enc <;> dsimp only
        · intro p hp
          rcases List.mem_append.mp hp with h1 | h2
          · exact hse p h1
          · simp only [List.mem_cons, List.not_mem_nil, or_false] at h2
            rcases h2 with rfl
            exact ⟨rfl, Or.inl rfl⟩
        · by_cases hmap : (env.mapperExists0 enc ||
              (setExtractedDeviceName env st).st.openMappings.contains enc) = true
          · rw [if_pos hmap]
            intro p hp
            rcases List.mem_append.mp hp with h1 | h2
            · exact hse p h1
            · simp only [List.mem_cons, List.not_mem_nil, or_false] at h2
              rcases h2 with rfl
              exact ⟨rfl, Or.inl rfl⟩
          · rw [if_neg hmap]
            by_cases hopen : env.cmdOk ["sudo", "cryptsetup", "luksOpen", d, enc] = true <;>
              [rw [if_pos hopen]; rw [if_neg hopen]] <;>
              · intro p hp
                rcases List.mem_append.mp hp with h1 | h2
                · exact hse p h1
                · simp only [List.mem_cons, List.not_mem_nil, or_false] at h2
                  rcases h2 with rfl | rfl
                  · exact ⟨rfl, Or.inl rfl⟩
                  · exact ⟨rfl, Or.inr rfl⟩
      · rw [if_neg hdump]
        intro p hp
        rcases List.mem_append.mp hp with h1 | h2
        · exact hse p h1
        · simp only [List.mem_cons, List.not_mem_nil, or_false] at h2
          rcases h2 with rfl
          exact ⟨rfl, Or.inl rfl⟩
  case sysExit c => exact fun p hp => hse p hp
  case exn => exact fun p hp => hse p hp

/-- The mount phase spawns only stdin-free processes. -/
theorem keyOnly_mount (env : Env) (k : String) (st : St) :
    KeyOnlyStdin k (mountVolume env st) := by
  unfold mountVolume safeCheckCall
  by_cases hm : st.mountpointMade <;>
    by_cases hmk : env.cmdOk ["sudo", "mkdir", MOUNTPOINT] = true <;>
      by_cases hmt : env.cmdOk
          ["sudo", "mount", "/dev/mapper/" ++ st.encryptedDevice, MOUNTPOINT] = true <;>
        by_cases hch : env.cmdOk ["sudo", "chown", "-R", "user:user", MOUNTPOINT] = true <;>
          · simp only [hm, hmk, hmt, hch, if_true, if_false, exitGracefully_str,
              exitGracefully_enum, Bool.false_eq_true]
            intro p hp
            simp only [List.mem_append, List.mem_cons, List.not_mem_nil, or_false,
              List.nil_append, List.append_nil] at hp
            first
              | (rcases hp with rfl; exact ⟨rfl, Or.inl rfl⟩)
              | (rcases hp with rfl | rfl; exacts [⟨rfl, Or.inl rfl⟩, ⟨rfl, Or.inl rfl⟩])
              | (rcases hp with rfl | rfl | rfl;
                 exacts [⟨rfl, Or.inl rfl⟩, ⟨rfl, Or.inl rfl⟩, ⟨rfl, Or.inl rfl⟩])
              | (split at hp <;> simp_all [pr])

/-- The copy body spawns only stdin-free processes. -/
theorem keyOnly_copyBody (env : Env) (tmp tgt : String) (k : String) (st : St) :
    KeyOnlyStdin k (copyBody env tmp tgt st) := by
  unfold copyBody safeCheckCall
  by_cases h1 : env.cmdOk ["mkdir", MOUNTPOINT ++ "/" ++ tgt] = true <;>
    by_cases h2 : env.cmdOk
        ["cp", "-r", tmp ++ "/export_data/", MOUNTPOINT ++ "/" ++ tgt] = true <;>
      by_cases h3 : env.cmdOk (notifySendCmd "Files exported successfully to disk.") = true <;>
        · simp only [h1, h2, h3, if_true, if_false, exitGracefully_str, Bool.false_eq_true]
          intro p hp
          simp only [List.mem_append, List.mem_cons, List.not_mem_nil, or_false] at hp
          first
            | (rcases hp with rfl; exact ⟨rfl, Or.inl rfl⟩)
            | (rcases hp with rfl | rfl; exacts [⟨rfl, Or.inl rfl⟩, ⟨rfl, Or.inl rfl⟩])
            | (rcases hp with (rfl | rfl) | rfl;
               exacts [⟨rfl, Or.inl rfl⟩, ⟨rfl, Or.inl rfl⟩, ⟨rfl, Or.inl rfl⟩])

/-- The finally block spawns only stdin-free processes. -/
theorem keyOnly_teardown (env : Env) (tmp : String) (k : String) (st : St) :
    KeyOnlyStdin k (teardownSeq env tmp st) := by
  unfold teardownSeq
  by_cases h1 : env.cmdOk ["sync"] = true <;>
    by_cases h2 : env.cmdOk ["sudo", "umount", MOUNTPOINT] = true <;>
      by_cases h3 : env.cmdOk
          ["sudo", "cryptsetup", "luksClose", st.encryptedDevice] = true <;>
        by_cases h4 : env.cmdOk ["rm", "-rf", tmp] = true <;>
          · simp only [h1, h2, h3, h4, if_true, if_false, Bool.false_eq_true]
            intro p hp
            simp only [List.mem_cons, List.not_mem_nil, or_false] at hp
            first
              | (rcases hp with rfl; exact ⟨rfl, Or.inl rfl⟩)
              | (rcases hp with rfl | rfl; exacts [⟨rfl, Or.inl rfl⟩, ⟨rfl, Or.inl rfl⟩])
              | (rcases hp with rfl | rfl | rfl;
                 exacts [⟨rfl, Or.inl rfl⟩, ⟨rfl, Or.inl rfl⟩, ⟨rfl, Or.inl rfl⟩])
              | (rcases hp with rfl | rfl | rfl | rfl;
                 exacts [⟨rfl, Or.inl rfl⟩, ⟨rfl, Or.inl rfl⟩, ⟨rfl, Or.inl rfl⟩,
                   ⟨rfl, Or.inl rfl⟩])

/-- copy_submission spawns only stdin-free processes. -/
theorem keyOnly_copy (env : Env) (tmp tgt : String) (k : String) (st : St) :
    KeyOnlyStdin k (copySubmission env tmp tgt st) := by
  intro p hp
  rw [copySubmission_procs] at hp
  rcases List.mem_append.mp hp with h1 | h2
  · exact keyOnly_copyBody env tmp tgt k st p h1
  · exact keyOnly_teardown env tmp k (copyBody env tmp tgt st).st p h2

/-- The whole export feeds the passphrase only over stdin of luksOpen. -/
theorem keyOnly_runExport (env : Env) (k : String) :
    KeyOnlyStdin k (runExport env k) := by
  unfold runExport
  exact keyOnly_andThen
    (keyOnly_andThen
      (keyOnly_andThen (keyOnly_checkUsb env false k (st0 env))
        (fun s => keyOnly_unlock env k s))
      (fun s => keyOnly_mount env k s))
    (fun s => keyOnly_copy env env.tmpdir env.targetDirname k s)

/-- The full export pipeline obeys the Status discipline. -/
theorem goodPhase_runExport (env : Env) (k : String) :
    GoodPhase (st0 env) (runExport env k) := by
  unfold runExport
  exact goodPhase_andThen
    (goodPhase_andThen
      (goodPhase_andThen (goodPhase_checkUsb env false (st0 env))
        (fun s => goodPhase_unlock env k s))
      (fun s => goodPhase_mount env s))
    (fun s => goodPhase_copy env env.tmpdir env.targetDirname s)

/-- C1 counterexample: when the copy fails (ERROR_USB_WRITE is reported) and
the teardown umount then fails, the run has reported a terminal Status yet
the process terminates with exit code 1, not 0. -/
theorem claim_C1_counterexample :
    (runExport envWriteUmountFail "pw").st.stderr = ["ERROR_USB_WRITE", "\n"] ∧
    statusCount (runExport envWriteUmountFail "pw").st.stderr = 1 ∧
    Ctl.exitCode (runExport envWriteUmountFail "pw").ctl = 1 := by
  decide

/-- C1 amended: every run writes at most one Status token to the error
stream, and every exit taken through sys.exit carries code 0; however a run
can instead end in an uncaught exception — exiting non-zero — as when a
teardown command fails after the Status was already reported. -/
theorem claim_C1_amended (env : Env) (k : String) :
    statusCount (runExport env k).st.stderr ≤ 1 ∧
    ∀ c, (runExport env k).ctl = Ctl.sysExit c → c = 0 := by
  obtain ⟨hcnt, _, hex⟩ := goodPhase_runExport env k
  refine ⟨?_, hex⟩
  have hz : statusCount (st0 env).stderr = 0 := rfl
  omega

/-- C1 witness: the amended statement on the happy path, whose sys.exit has
code 0. -/
theorem claim_C1_witness :
    statusCount (runExport envHappy "pw").st.stderr ≤ 1 ∧ (0 : Nat) = 0 :=
  ⟨(claim_C1_amended envHappy "pw").1,
   (claim_C1_amended envHappy "pw").2 0 (by decide)⟩

/-- C7: for any two passphrases, the two export runs spawn identical
argument vectors in identical order, reach the same final state and control
outcome, and every spawned process inherits the environment unchanged; the
passphrase appears only as the stdin payload of the luksOpen subprocess. -/
theorem claim_C7_keys_private (env : Env) (k1 k2 : String) :
    (runExport env k1).st = (runExport env k2).st ∧
    (runExport env k1).ctl = (runExport env k2).ctl ∧
    (runExport env k1).procs.map Proc.argv = (runExport env k2).procs.map Proc.argv ∧
    ∀ p ∈ (runExport env k1).procs,
      p.extraEnv = [] ∧ (p.stdinData = none ∨ p.stdinData = some k1) := by
  obtain ⟨h1, h2, h3⟩ := sim_runExport env k1 k2
  exact ⟨h1, h2, h3, keyOnly_runExport env k1⟩

/-- C7 witness: the hyperproperty evaluated at two concrete passphrases on
the happy path, applied to the spawned luksOpen process. -/
theorem claim_C7_witness :
    (runExport envHappy "hunter1").st = (runExport envHappy "hunter2").st ∧
    (runExport envHappy "hunter1").ctl = (runExport envHappy "hunter2").ctl ∧
    (runExport envHappy "hunter1").procs.map Proc.argv =
      (runExport envHappy "hunter2").procs.map Proc.argv ∧
    ((⟨["sudo", "cryptsetup", "luksOpen", "/dev/sda", "luks-123abc"],
        some "hunter1", []⟩ : Proc).extraEnv = [] ∧
      ((⟨["sudo", "cryptsetup", "luksOpen", "/dev/sda", "luks-123abc"],
          some "hunter1", []⟩ : Proc).stdinData = none ∨
        (⟨["sudo", "cryptsetup", "luksOpen", "/dev/sda", "luks-123abc"],
          some "hunter1", []⟩ : Proc).stdinData = some "hunter1")) :=
  ⟨(claim_C7_keys_private envHappy "hunter1" "hunter2").1,
   (claim_C7_keys_private envHappy "hunter1" "hunter2").2.1,
   (claim_C7_keys_private envHappy "hunter1" "hunter2").2.2.1,
   (claim_C7_keys_private envHappy "hunter1" "hunter2").2.2.2
     ⟨["sudo", "cryptsetup", "luksOpen", "/dev/sda", "luks-123abc"], some "hunter1", []⟩
     (by decide)⟩

/-- C10: for every archive whose metadata passes Metadata.is_valid, the
__main__ dispatch branches for the export methods "disk-check" and
"printer-check" are unreachable — check_luks_volume (and
check_printer_connected) is never invoked from __main__ — and the "disk"
path runs unlock, mount, copy directly, with no prior isLuks verification. -/
theorem claim_C10_dispatch (m : Metadata) (h : m.is_valid = true) :
    MainOp.checkLuksVolumeOp ∉ mainDispatch m ∧
    MainOp.checkPrinterConnectedOp ∉ mainDispatch m ∧
    (m.exportMethod = some "disk" →
      mainDispatch m = [.unlockLuksVolumeOp, .mountVolumeOp, .copySubmissionOp]) := by
  rcases hm : m.exportMethod with _ | em
  · unfold Metadata.is_valid at h
    rw [hm] at h
    exact absurd h (by simp)
  · have hmem : em ∈ SUPPORTED_EXPORT_METHODS := by
      have h2 := h
      simp only [Metadata.is_valid, hm] at h2
      cases hcb : SUPPORTED_EXPORT_METHODS.contains em with
      | false => rw [hcb] at h2; simp at h2
      | true => simpa using hcb
    fin_cases hmem <;> simp [mainDispatch, h, hm]

/-- C10 witness: a valid disk submission dispatches to unlock, mount, copy
and never to the LUKS or printer preflight checks. -/
theorem claim_C10_witness :
    MainOp.checkLuksVolumeOp ∉ mainDispatch ⟨some "disk", some "luks"⟩ ∧
    MainOp.checkPrinterConnectedOp ∉ mainDispatch ⟨some "disk", some "luks"⟩ ∧
    mainDispatch ⟨some "disk", some "luks"⟩ =
      [.unlockLuksVolumeOp, .mountVolumeOp, .copySubmissionOp] :=
  ⟨(claim_C10_dispatch ⟨some "disk", some "luks"⟩ (by decide)).1,
   (claim_C10_dispatch ⟨some "disk", some "luks"⟩ (by decide)).2.1,
   (claim_C10_dispatch ⟨some "disk", some "luks"⟩ (by decide)).2.2 rfl⟩

/-- C4 counterexample: exit_gracefully, handed an exception whose captured
output is a string, writes that diagnostic output to the error stream right
after the Status line; and in a run where only the success notification
fails, the caller-visible channel carries a line that is not a Status token
at all (and no Status token whatsoever). -/
theorem claim_C4_counterexample :
    (exitGracefully (st0 envHappy) (.strMsg "ERROR_USB_MOUNT")
        (.excOut "mount: /dev/mapper/luks-123abc busy")).1.stderr =
      ["ERROR_USB_MOUNT", "\n", "mount: /dev/mapper/luks-123abc busy", "\n"] ∧
    (runExport envNotifyFail "pw").st.stderr = ["Error sending notification:", "\n"] ∧
    statusCount (runExport envNotifyFail "pw").st.stderr = 0 := by
  refine ⟨rfl, ?_, ?_⟩ <;> decide

/-- C4 amended: exit_gracefully forwards any truthy attached diagnostic to
the error stream, but when the diagnostic argument is absent or None — as at
every current call site, since check_call captures no output — the channel
receives exactly the message line and a newline, and the exit is graceful. -/
theorem claim_C4_amended (st : St) (msg : String) (env : Env) (st2 : St)
    (cmd : List String) (emsg : String) (hfail : env.cmdOk cmd = false) :
    (exitGracefully st (.strMsg msg) .noneV).1.stderr = st.stderr ++ [msg, "\n"] ∧
    (exitGracefully st (.strMsg msg) .noneV).2 = .sysExit 0 ∧
    (safeCheckCall env st2 cmd (.strMsg emsg)).st.stderr = st2.stderr ++ [emsg, "\n"] ∧
    (safeCheckCall env st2 cmd (.strMsg emsg)).ctl = .sysExit 0 := by
  refine ⟨rfl, rfl, ?_, ?_⟩ <;>
    simp [safeCheckCall, hfail, exitGracefully, PyVal.truthy]

/-- C4 witness: the amended statement evaluated at a failing copy command. -/
theorem claim_C4_witness :
    (exitGracefully (st0 envHappy) (.strMsg "ERROR_USB_WRITE") .noneV).1.stderr =
      (st0 envHappy).stderr ++ ["ERROR_USB_WRITE", "\n"] ∧
    (exitGracefully (st0 envHappy) (.strMsg "ERROR_USB_WRITE") .noneV).2 = .sysExit 0 ∧
    (safeCheckCall envWriteFail (st0 envHappy) cpCmdHappy
        (.strMsg "ERROR_USB_WRITE")).st.stderr =
      (st0 envHappy).stderr ++ ["ERROR_USB_WRITE", "\n"] ∧
    (safeCheckCall envWriteFail (st0 envHappy) cpCmdHappy
        (.strMsg "ERROR_USB_WRITE")).ctl = .sysExit 0 :=
  claim_C4_amended (st0 envHappy) "ERROR_USB_WRITE" envWriteFail (st0 envHappy)
    cpCmdHappy "ERROR_USB_WRITE" (by decide)

/-- C5 counterexample: with zero removable devices the check reports
USB_NOT_CONNECTED, not the legacy generic-error Status ERROR_GENERIC. -/
theorem claim_C5_counterexample :
    (checkUsbConnected envNoDevice false (st0 envNoDevice)).st.stderr =
      ["USB_NOT_CONNECTED", "\n"] ∧
    "ERROR_GENERIC" ∉ (checkUsbConnected envNoDevice false (st0 envNoDevice)).st.stderr := by
  decide

/-- C5 amended: zero removable devices report USB_NOT_CONNECTED; exactly one
becomes the target device (with USB_CONNECTED reported only when the exit
flag is set, and the pipeline continuing silently otherwise); two or more
report ERROR_GENERIC. -/
theorem claim_C5_amended (env : Env) (flag : Bool) (st : St) :
    (usbDevices env = [] →
      (checkUsbConnected env flag st).st.stderr = st.stderr ++ ["USB_NOT_CONNECTED", "\n"] ∧
      (checkUsbConnected env flag st).ctl = .sysExit 0) ∧
    (∀ d, usbDevices env = [d] →
      (checkUsbConnected env flag st).st.device = some d ∧
      (flag = false → (checkUsbConnected env flag st).ctl = .ok ∧
        (checkUsbConnected env flag st).st.stderr = st.stderr) ∧
      (flag = true →
        (checkUsbConnected env flag st).st.stderr = st.stderr ++ ["USB_CONNECTED", "\n"] ∧
        (checkUsbConnected env flag st).ctl = .sysExit 0)) ∧
    (2 ≤ (usbDevices env).length →
      (checkUsbConnected env flag st).st.stderr = st.stderr ++ ["ERROR_GENERIC", "\n"] ∧
      (checkUsbConnected env flag st).ctl = .sysExit 0) := by
  cases flag <;>
    rcases h : usbDevices env with _ | ⟨d, _ | ⟨e, tl⟩⟩ <;>
      simp [checkUsbConnected, h, exitGracefully, PyVal.truthy, ExportStatus.value]

/-- C5 witness: the amended statement at a world with no device and at the
happy single-device world. -/
theorem claim_C5_witness :
    ((checkUsbConnected envNoDevice false (st0 envNoDevice)).st.stderr =
      (st0 envNoDevice).stderr ++ ["USB_NOT_CONNECTED", "\n"] ∧
     (checkUsbConnected envNoDevice false (st0 envNoDevice)).ctl = .sysExit 0) ∧
    (checkUsbConnected envHappy false (st0 envHappy)).st.device = some "/dev/sda" :=
  ⟨(claim_C5_amended envNoDevice false (st0 envNoDevice)).1 rfl,
   ((claim_C5_amended envHappy false (st0 envHappy)).2.1 "/dev/sda" rfl).1⟩

/-- C8 counterexample: a disk with two partitions makes the name extraction
fail with USB_ENCRYPTION_NOT_SUPPORTED; no invalid-device Status exists in
the code at all, and the target device is left unchanged. -/
theorem claim_C8_counterexample :
    (setExtractedDeviceName envTwoPartitions
        { st0 envTwoPartitions with device := some "/dev/sda" }).st.stderr =
      ["USB_ENCRYPTION_NOT_SUPPORTED", "\n"] ∧
    "INVALID_DEVICE_DETECTED" ∉ statusValues ∧
    (setExtractedDeviceName envTwoPartitions
        { st0 envTwoPartitions with device := some "/dev/sda" }).st.device =
      some "/dev/sda" ∧
    (setExtractedDeviceName envTwoPartitions
        { st0 envTwoPartitions with device := some "/dev/sda" }).ctl = .sysExit 0 := by
  decide

/-- C8 amended: zero partitions keep the whole disk as target; exactly one
appends "1" to the disk path, targeting that partition; more than one fails
with the USB_ENCRYPTION_NOT_SUPPORTED Status (the code has no invalid-device
Status) and leaves the target unselected. -/
theorem claim_C8_amended (env : Env) (st : St) (d : String)
    (hdev : st.device = some d) (hok : env.lsblkTypesOk d = true) :
    ((env.lsblkTypes d).count "part" = 0 →
      (setExtractedDeviceName env st).st.device = some d ∧
      (setExtractedDeviceName env st).ctl = .ok) ∧
    ((env.lsblkTypes d).count "part" = 1 →
      (setExtractedDeviceName env st).st.device = some (d ++ "1") ∧
      (setExtractedDeviceName env st).ctl = .ok) ∧
    (2 ≤ (env.lsblkTypes d).count "part" →
      (setExtractedDeviceName env st).st.device = some d ∧
      (setExtractedDeviceName env st).ctl = .sysExit 0 ∧
      (setExtractedDeviceName env st).st.stderr =
        st.stderr ++ ["USB_ENCRYPTION_NOT_SUPPORTED", "\n"]) := by
  refine ⟨fun h0 => ?_, fun h1 => ?_, fun h2 => ?_⟩ <;>
    simp [setExtractedDeviceName, hdev, hok, exitGracefully, PyVal.truthy,
      ExportStatus.value]
  · simp [h0]
  · simp [h1]
  · have hgt : (env.lsblkTypes d).count "part" > 1 := h2
    simp [hdev, Nat.not_eq_zero_of_lt (Nat.lt_trans Nat.zero_lt_one hgt), hgt]

/-- C8 witness: the amended statement at the unpartitioned, one-partition
and two-partition worlds. -/
theorem claim_C8_witness :
    ((setExtractedDeviceName envHappy
        { st0 envHappy with device := some "/dev/sda" }).st.device = some "/dev/sda" ∧
     (setExtractedDeviceName envHappy
        { st0 envHappy with device := some "/dev/sda" }).ctl = .ok) ∧
    (setExtractedDeviceName envOnePartition stDiscovered).st.device = some "/dev/sda1" ∧
    (setExtractedDeviceName envTwoPartitions
        { st0 envTwoPartitions with device := some "/dev/sda" }).ctl = .sysExit 0 :=
  ⟨(claim_C8_amended envHappy { st0 envHappy with device := some "/dev/sda" }
      "/dev/sda" rfl rfl).1 rfl,
   ((claim_C8_amended envOnePartition stDiscovered "/dev/sda" rfl rfl).2.1 rfl).1,
   ((claim_C8_amended envTwoPartitions { st0 envTwoPartitions with device := some "/dev/sda" }
      "/dev/sda" rfl rfl).2.2 (by decide)).2.1⟩

/-- C9 counterexample: the legacy SDExport.mount_volume, on a failing mount
command, does re-lock the LUKS container — it issues
`sudo cryptsetup luksClose` and the mapping is closed — before reporting
ERROR_USB_MOUNT and exiting gracefully. -/
theorem claim_C9_counterexample :
    (sdMountVolume envSdMountFail stSdUnlocked).procs.map Proc.argv =
      [["sudo", "mount", "/dev/mapper/encrypted_volume", "/media/usb"],
       ["sudo", "cryptsetup", "luksClose", "encrypted_volume"]] ∧
    stSdUnlocked.openMappings = ["encrypted_volume"] ∧
    (sdMountVolume envSdMountFail stSdUnlocked).st.openMappings = [] ∧
    (sdMountVolume envSdMountFail stSdUnlocked).st.stderr = ["ERROR_USB_MOUNT", "\n"] ∧
    (sdMountVolume envSdMountFail stSdUnlocked).ctl = .sysExit 0 := by
  decide

/-- C9 amended: the USB-mixin mount_volume never issues a cryptsetup command
and leaves the set of open mappings unchanged — teardown is left to the
caller — and on a failing mount command (with the mountpoint present) it
reports ERROR_USB_MOUNT, exits gracefully and leaves the volume unmounted;
the legacy SDExport.mount_volume instead re-locks the container itself on
mount failure. -/
theorem claim_C9_amended (env : Env) (st : St) :
    (mountVolume env st).st.openMappings = st.openMappings ∧
    (((mountVolume env st).procs.map Proc.argv).all
      (fun a => !(a.getD 1 "" == "cryptsetup"))) = true ∧
    (st.mountpointMade = true →
      env.cmdOk ["sudo", "mount", "/dev/mapper/" ++ st.encryptedDevice, MOUNTPOINT] = false →
      (mountVolume env st).ctl = .sysExit 0 ∧
      (mountVolume env st).st.mounted = st.mounted ∧
      (mountVolume env st).st.stderr = st.stderr ++ ["ERROR_USB_MOUNT", "\n"]) := by
  unfold mountVolume safeCheckCall exitGracefully
  by_cases hm : st.mountpointMade
  · simp only [hm, if_true]
    by_cases hmt : env.cmdOk ["sudo", "mount", "/dev/mapper/" ++ st.encryptedDevice, MOUNTPOINT]
    · simp only [hmt, if_true]
      by_cases hch : env.cmdOk ["sudo", "chown", "-R", "user:user", MOUNTPOINT] <;>
        simp [hmt, hch, PyVal.truthy, pr, ExportStatus.value]
    · simp [hmt, PyVal.truthy, pr, ExportStatus.value]
  · simp only [hm, if_false, Bool.false_eq_true]
    by_cases hmk : env.cmdOk ["sudo", "mkdir", MOUNTPOINT]
    · simp only [hmk, if_true]
      by_cases hmt : env.cmdOk ["sudo", "mount", "/dev/mapper/" ++ st.encryptedDevice, MOUNTPOINT]
      · by_cases hch : env.cmdOk ["sudo", "chown", "-R", "user:user", MOUNTPOINT] <;>
          simp [hmt, hch, hm, PyVal.truthy, pr, ExportStatus.value]
      · simp [hmt, hm, PyVal.truthy, pr, ExportStatus.value]
    · simp [hmk, hm, PyVal.truthy, pr, ExportStatus.value]

/-- C9 witness: the amended statement at the world where the mount of the
unlocked happy-path mapping fails. -/
theorem claim_C9_witness :
    (mountVolume envMountFail stUnlocked).st.openMappings = stUnlocked.openMappings ∧
    (mountVolume envMountFail stUnlocked).ctl = .sysExit 0 ∧
    (mountVolume envMountFail stUnlocked).st.mounted = stUnlocked.mounted :=
  ⟨(claim_C9_amended envMountFail stUnlocked).1,
   ((claim_C9_amended envMountFail stUnlocked).2.2 rfl (by decide)).1,
   ((claim_C9_amended envMountFail stUnlocked).2.2 rfl (by decide)).2.1⟩

/-- C3 counterexample: with the copy already failed, a failing sync in the
teardown prevents every later teardown step — the unmount is never issued —
and the process terminates with an uncaught exception rather than the
graceful exit, even though ERROR_USB_WRITE had already been written. -/
theorem claim_C3_counterexample :
    pr ["sync"] ∈ (runExport envWriteSyncFail "pw").procs ∧
    pr ["sudo", "umount", "/media/usb"] ∉ (runExport envWriteSyncFail "pw").procs ∧
    (runExport envWriteSyncFail "pw").ctl = .exn ∧
    (runExport envWriteSyncFail "pw").st.stderr = ["ERROR_USB_WRITE", "\n"] := by
  decide

/-- C3 amended: on a failed copy with the write-error Status already written
to stderr, the teardown runs sync, umount, luksClose, rm in that order when
each succeeds and then exits gracefully; but each step runs only if all the
earlier ones succeeded — a failing sync suppresses the remaining steps and
replaces the graceful exit with an uncaught error, while the already-written
write-error Status stays on stderr. -/
theorem claim_C3_amended (env : Env) (tmp tgt : String) (st : St)
    (hm : env.cmdOk ["mkdir", MOUNTPOINT ++ "/" ++ tgt] = true)
    (hc : env.cmdOk ["cp", "-r", tmp ++ "/export_data/", MOUNTPOINT ++ "/" ++ tgt] = false) :
    (env.cmdOk ["sync"] = true →
      env.cmdOk ["sudo", "umount", MOUNTPOINT] = true →
      env.cmdOk ["sudo", "cryptsetup", "luksClose", st.encryptedDevice] = true →
      env.cmdOk ["rm", "-rf", tmp] = true →
      (copySubmission env tmp tgt st).procs.map Proc.argv =
        [["mkdir", MOUNTPOINT ++ "/" ++ tgt],
         ["cp", "-r", tmp ++ "/export_data/", MOUNTPOINT ++ "/" ++ tgt],
         ["sync"], ["sudo", "umount", MOUNTPOINT],
         ["sudo", "cryptsetup", "luksClose", st.encryptedDevice],
         ["rm", "-rf", tmp]] ∧
      (copySubmission env tmp tgt st).ctl = .sysExit 0 ∧
      (copySubmission env tmp tgt st).st.stderr =
        st.stderr ++ ["ERROR_USB_WRITE", "\n"]) ∧
    (env.cmdOk ["sync"] = false →
      (copySubmission env tmp tgt st).procs.map Proc.argv =
        [["mkdir", MOUNTPOINT ++ "/" ++ tgt],
         ["cp", "-r", tmp ++ "/export_data/", MOUNTPOINT ++ "/" ++ tgt],
         ["sync"]] ∧
      (copySubmission env tmp tgt st).ctl = .exn ∧
      (copySubmission env tmp tgt st).st.stderr =
        st.stderr ++ ["ERROR_USB_WRITE", "\n"]) := by
  constructor
  · intro h1 h2 h3 h4
    simp [copySubmission, copyBody, teardownSeq, exitGracefully, safeCheckCall,
      PyVal.truthy, pr, hm, hc, h1, h2, h3, h4, ExportStatus.value]
  · intro h1
    simp [copySubmission, copyBody, teardownSeq, exitGracefully, safeCheckCall,
      PyVal.truthy, pr, hm, hc, h1, ExportStatus.value]

/-- C3 witness: the amended statement at the world where only the copy fails
and at the world where the copy and the sync fail. -/
theorem claim_C3_witness :
    (copySubmission envWriteFail "/tmp/t" "sd-export-20260101" (st0 envWriteFail)).ctl =
      .sysExit 0 ∧
    (copySubmission envWriteSyncFail "/tmp/t" "sd-export-20260101"
      (st0 envWriteSyncFail)).ctl = .exn :=
  ⟨((claim_C3_amended envWriteFail "/tmp/t" "sd-export-20260101" (st0 envWriteFail)
      (by decide) (by decide)).1 (by decide) (by decide) (by decide) (by decide)).2.1,
   ((claim_C3_amended envWriteSyncFail "/tmp/t" "sd-export-20260101" (st0 envWriteSyncFail)
      (by decide) (by decide)).2 (by decide)).2.1⟩

/-- The try/except body of copy_submission never changes the mapped name. -/
theorem copyBody_encryptedDevice (env : Env) (tmp tgt : String) (st : St) :
    (copyBody env tmp tgt st).st.encryptedDevice = st.encryptedDevice := by
  by_cases h1 : env.cmdOk ["mkdir", MOUNTPOINT ++ "/" ++ tgt] <;>
    by_cases h2 : env.cmdOk ["cp", "-r", tmp ++ "/export_data/", MOUNTPOINT ++ "/" ++ tgt] <;>
      by_cases h3 : env.cmdOk (notifySendCmd "Files exported successfully to disk.") <;>
        simp [copyBody, safeCheckCall, exitGracefully, PyVal.truthy, h1, h2, h3]

/-- The finally block always issues sync, and issues each later teardown
step whenever all the preceding ones succeeded. -/
theorem teardownSeq_attempts (env : Env) (tmp : String) (st : St) :
    pr ["sync"] ∈ (teardownSeq env tmp st).procs ∧
    (env.cmdOk ["sync"] = true →
      pr ["sudo", "umount", MOUNTPOINT] ∈ (teardownSeq env tmp st).procs) ∧
    (env.cmdOk ["sync"] = true → env.cmdOk ["sudo", "umount", MOUNTPOINT] = true →
      pr ["sudo", "cryptsetup", "luksClose", st.encryptedDevice] ∈
        (teardownSeq env tmp st).procs) ∧
    (env.cmdOk ["sync"] = true → env.cmdOk ["sudo", "umount", MOUNTPOINT] = true →
      env.cmdOk ["sudo", "cryptsetup", "luksClose", st.encryptedDevice] = true →
      pr ["rm", "-rf", tmp] ∈ (teardownSeq env tmp st).procs) := by
  by_cases h1 : env.cmdOk ["sync"] <;>
    by_cases h2 : env.cmdOk ["sudo", "umount", MOUNTPOINT] <;>
      by_cases h3 : env.cmdOk ["sudo", "cryptsetup", "luksClose", st.encryptedDevice] <;>
        by_cases h4 : env.cmdOk ["rm", "-rf", tmp] <;>
          simp [teardownSeq, h1, h2, h3, h4]

/-- C2 counterexample: when the mount command fails after a successful
unlock, the run exits gracefully with ERROR_USB_MOUNT while the
passphrase-derived mapping luks-123abc is still open, and no teardown
command (sync, umount, luksClose, rm) was ever issued. -/
theorem claim_C2_counterexample :
    (runExport envMountFail "pw").ctl = .sysExit 0 ∧
    (runExport envMountFail "pw").st.openMappings = ["luks-123abc"] ∧
    (runExport envMountFail "pw").procs.map Proc.argv =
      [["lsblk", "-o", "NAME,TYPE"], ["grep", "disk"],
       ["cat", "/sys/class/block/sda/removable"],
       ["lsblk", "-o", "TYPE", "--noheadings", "/dev/sda"],
       ["sudo", "cryptsetup", "luksDump", "/dev/sda"],
       ["sudo", "cryptsetup", "luksOpen", "/dev/sda", "luks-123abc"],
       ["sudo", "mount", "/dev/mapper/luks-123abc", "/media/usb"]] ∧
    (runExport envMountFail "pw").st.stderr = ["ERROR_USB_MOUNT", "\n"] := by
  decide

/-- C2 amended: the teardown sequence is attempted only by copy_submission:
whenever the copy phase runs it issues sync regardless of the copy outcome,
and issues each later teardown step (umount, luksClose of the current
mapped name, rm of the temporary directory) whenever the preceding steps
succeeded; exit paths before the copy phase (such as a mount failure after
unlock) report their Status without any teardown. -/
theorem claim_C2_amended (env : Env) (tmp tgt : String) (st : St) :
    pr ["sync"] ∈ (copySubmission env tmp tgt st).procs ∧
    (env.cmdOk ["sync"] = true →
      pr ["sudo", "umount", MOUNTPOINT] ∈ (copySubmission env tmp tgt st).procs) ∧
    (env.cmdOk ["sync"] = true → env.cmdOk ["sudo", "umount", MOUNTPOINT] = true →
      pr ["sudo", "cryptsetup", "luksClose", st.encryptedDevice] ∈
        (copySubmission env tmp tgt st).procs) ∧
    (env.cmdOk ["sync"] = true → env.cmdOk ["sudo", "umount", MOUNTPOINT] = true →
      env.cmdOk ["sudo", "cryptsetup", "luksClose", st.encryptedDevice] = true →
      pr ["rm", "-rf", tmp] ∈ (copySubmission env tmp tgt st).procs) := by
  have hbody := copyBody_encryptedDevice env tmp tgt st
  have ht := teardownSeq_attempts env tmp (copyBody env tmp tgt st).st
  rw [hbody] at ht
  rw [copySubmission_procs]
  exact ⟨List.mem_append_right _ ht.1,
    fun h1 => List.mem_append_right _ (ht.2.1 h1),
    fun h1 h2 => List.mem_append_right _ (ht.2.2.1 h1 h2),
    fun h1 h2 h3 => List.mem_append_right _ (ht.2.2.2 h1 h2 h3)⟩

/-- C2 witness: the amended statement on the happy path, where all four
teardown commands are issued. -/
theorem claim_C2_witness :
    pr ["sync"] ∈
      (copySubmission envHappy "/tmp/t" "sd-export-20260101" (st0 envHappy)).procs ∧
    pr ["sudo", "umount", MOUNTPOINT] ∈
      (copySubmission envHappy "/tmp/t" "sd-export-20260101" (st0 envHappy)).procs ∧
    pr ["rm", "-rf", "/tmp/t"] ∈
      (copySubmission envHappy "/tmp/t" "sd-export-20260101" (st0 envHappy)).procs :=
  ⟨(claim_C2_amended envHappy "/tmp/t" "sd-export-20260101" (st0 envHappy)).1,
   (claim_C2_amended envHappy "/tmp/t" "sd-export-20260101" (st0 envHappy)).2.1 rfl,
   (claim_C2_amended envHappy "/tmp/t" "sd-export-20260101" (st0 envHappy)).2.2.2
     rfl rfl rfl⟩

/-- C6 counterexample: on a disk with one partition, a second unlock within
the same attempt re-runs the name extraction, which turns the device
/dev/sda1 into /dev/sda11; reading that header yields a different UUID and
hence a different mapped name, and a second luksOpen is spawned — the second
unlock re-opens rather than being idempotent. -/
theorem claim_C6_counterexample :
    (unlockLuks envOnePartition "pw" stDiscovered).ctl = .ok ∧
    (unlockLuks envOnePartition "pw" stDiscovered).st.encryptedDevice = "luks-abc" ∧
    (unlockLuks envOnePartition "pw"
        (unlockLuks envOnePartition "pw" stDiscovered).st).st.encryptedDevice =
      "luks-zzz" ∧
    ("luks-abc" : String) ≠ "luks-zzz" ∧
    (⟨["sudo", "cryptsetup", "luksOpen", "/dev/sda11", "luks-zzz"], some "pw", []⟩ : Proc) ∈
      (unlockLuks envOnePartition "pw"
        (unlockLuks envOnePartition "pw" stDiscovered).st).procs := by
  decide

/-- C6 amended: for a target device with no partitions, unlocking twice in
one attempt derives the same UUID-based mapped name both times, and the
second unlock spawns no luksOpen at all (only the lsblk and luksDump
queries); with a partitioned device the name extraction mutates the device
path again, so idempotence fails. -/
theorem claim_C6_amended (env : Env) (k k' : String) (st : St) (d : String)
    (hdev : st.device = some d) (hok : env.lsblkTypesOk d = true)
    (h0 : (env.lsblkTypes d).count "part" = 0) (hdump : env.luksDumpOk d = true)
    (h1 : (unlockLuks env k st).ctl = .ok) :
    (unlockLuks env k' (unlockLuks env k st).st).st.encryptedDevice =
      (unlockLuks env k st).st.encryptedDevice ∧
    (unlockLuks env k' (unlockLuks env k st).st).ctl = .ok ∧
    (unlockLuks env k' (unlockLuks env k st).st).procs.map Proc.argv =
      [["lsblk", "-o", "TYPE", "--noheadings", d],
       ["sudo", "cryptsetup", "luksDump", d]] := by
  rcases hp : parseLuksName (env.luksDump d) st.encryptedDevice with _ | enc
  · simp [unlockLuks, setExtractedDeviceName, hdev, hok, h0, hdump, hp] at h1
  · have hidem := parseLuksName_idem (env.luksDump d) st.encryptedDevice enc hp
    by_cases hmap : env.mapperExists0 enc = true ∨ enc ∈ st.openMappings
    · simp [unlockLuks, setExtractedDeviceName, hdev, hok, h0, hdump, hp, hmap,
        hidem, pr]
    · by_cases hopen : env.cmdOk ["sudo", "cryptsetup", "luksOpen", d, enc] = true
      · simp [unlockLuks, setExtractedDeviceName, hdev, hok, h0, hdump, hp, hmap,
          hopen, hidem, pr]
      · simp [unlockLuks, setExtractedDeviceName, hdev, hok, h0, hdump, hp, hmap,
          hopen, exitGracefully, PyVal.truthy] at h1

/-- C6 witness: the amended statement on the happy unpartitioned world. -/
theorem claim_C6_witness :
    (unlockLuks envHappy "k2"
        (unlockLuks envHappy "k1" { st0 envHappy with device := some "/dev/sda" }).st).st.encryptedDevice =
      (unlockLuks envHappy "k1"
        { st0 envHappy with device := some "/dev/sda" }).st.encryptedDevice ∧
    (unlockLuks envHappy "k2"
        (unlockLuks envHappy "k1" { st0 envHappy with device := some "/dev/sda" }).st).ctl =
      .ok ∧
    (unlockLuks envHappy "k2"
        (unlockLuks envHappy "k1"
          { st0 envHappy with device := some "/dev/sda" }).st).procs.map Proc.argv =
      [["lsblk", "-o", "TYPE", "--noheadings", "/dev/sda"],
       ["sudo", "cryptsetup", "luksDump", "/dev/sda"]] :=
  claim_C6_amended envHappy "k1" "k2" { st0 envHappy with device := some "/dev/sda" }
    "/dev/sda" rfl rfl (by decide) rfl (by decide)

end SDExport

